import Mathlib

/-!
Verification of the lila-trgovid web application (src/index.js) against its
natural-language specification. The route handlers are shallowly embedded as
pure functions: each handler takes the browser session, the request body, the
results of the external calls it performs (identity verification, team join,
team kick, token exchange) and the current list of stored player records, and
returns the updated store, the HTTP response, and, for the admin routes, the
list of store and remote operations it performed.
-/

set_option autoImplicit false
set_option linter.unusedVariables false

namespace LilaTrgovid

/-- A stored player verification record (the mongoose Player model).
The birthYear field holds the submitted form value, which the handler passes
through unchanged. -/
structure PlayerRecord where
  userId : String
  userName : String
  firstName : String
  lastName : String
  birthYear : String
  govId : String
  govIdSignature : String
  banned : Bool
deriving Repr, DecidableEq

/-- The browser session fields used by the handlers. Missing fields are
modelled as none. -/
structure Session where
  userId : Option String
  userName : String
  authToken : Option String
  returnUrl : Option String
deriving Repr, DecidableEq

/-- The body of POST /verify/gov: fields id, name, surname, year. -/
structure VerifyBody where
  id : String
  name : String
  surname : String
  year : String
deriving Repr, DecidableEq

/-- The HTTP-level outcome of a handler: a redirect with a status code and a
location, or a rendered view carrying the list of players passed to the
template. -/
inductive Response where
  | redirect (status : Nat) (location : String)
  | render (view : String) (players : List PlayerRecord)
deriving Repr, DecidableEq

/-- Store and remote operations performed by the admin handlers. -/
inductive Effect where
  | getTeamMembers
  | findPlayers
  | updatePlayer (userId : String) (banned : Bool)
  | kick (userId : String)
deriving Repr, DecidableEq

/-- Whether an effect is a remote team-API call (as opposed to a local store
operation). -/
def Effect.isRemote : Effect → Bool
  | .getTeamMembers => true
  | .kick _ => true
  | _ => false

/-- JavaScript truthiness of a possibly missing string session field: both an
absent value (undefined) and the empty string are falsy. -/
def optTruthy : Option String → Bool
  | none => false
  | some s => !s.isEmpty

/-- The gov-id masking performed in the handler. The source computes
id.replace with the non-global regex matching five decimal digits preceded by
a lookbehind of three decimal digits, replacing the match with five
asterisks. The first match of that regex starts at the earliest offset whose
three preceding characters and five following characters are all digits,
which is offset 3 into the first run of eight consecutive digits; when no
such run exists the string is returned unchanged. -/
def maskList : List Char → List Char
  | [] => []
  | c :: rest =>
    if (((c :: rest).take 8).length == 8 && ((c :: rest).take 8).all Char.isDigit) then
      (c :: rest).take 3 ++ List.replicate 5 '*' ++ (c :: rest).drop 8
    else
      c :: maskList rest

/-- Masking lifted to strings: applied to the character data of the id. -/
def maskGovId (s : String) : String := String.mk (maskList s.data)

/-- Whether some position of the list starts a run of eight decimal digits,
i.e. whether the masking regex has a match in the string. -/
def hasRun8 : List Char → Bool
  | [] => false
  | c :: rest =>
    (((c :: rest).take 8).length == 8 && ((c :: rest).take 8).all Char.isDigit)
      || hasRun8 rest

/-- The banned-record lookup of POST /verify/gov: Player.find on the
signature of the submitted id together with banned true. -/
def bannedMatches (hash : String → String) (body : VerifyBody)
    (store : List PlayerRecord) : List PlayerRecord :=
  store.filter fun p => p.govIdSignature == hash body.id && p.banned

/-- The record object built at both Player.create sites of POST /verify/gov:
session userId and userName, the submitted name, surname and year, the masked
gov id, the signature of the unmasked id, and the given banned flag. -/
def newRecord (hash : String → String) (sess : Session) (body : VerifyBody)
    (b : Bool) : PlayerRecord :=
  { userId := sess.userId.getD "", userName := sess.userName,
    firstName := body.name, lastName := body.surname, birthYear := body.year,
    govId := maskGovId body.id, govIdSignature := hash body.id, banned := b }

/-- POST /verify/gov. verifyStatus is the truthiness of the result of the
remote identity-verification call; joinOk is the ok flag returned by the
team-join call. Unauthenticated sessions are redirected to /auth; a falsy
verification status redirects back to the form; a signature match against
existing banned records propagates the ban (creating a record only when none
of the matches already carries the current account id) and redirects to the
banned page; otherwise a successful join creates a non-banned record and
redirects to the success page, and a failed join redirects to the error
page. -/
def verifyGovPost (hash : String → String) (sess : Session) (body : VerifyBody)
    (verifyStatus : Bool) (joinOk : Bool) (store : List PlayerRecord) :
    List PlayerRecord × Response :=
  if !optTruthy sess.userId then
    (store, .redirect 303 "/auth?returnUrl=/verify/gov")
  else if !verifyStatus then
    (store, .redirect 303 "/verify/gov")
  else if 0 < (bannedMatches hash body store).length then
    if ((bannedMatches hash body store).find?
          fun p => p.userId == sess.userId.getD "").isNone then
      (store ++ [newRecord hash sess body true], .redirect 303 "/messages/banned")
    else
      (store, .redirect 303 "/messages/banned")
  else if !joinOk then
    (store, .redirect 303 "/messages/error")
  else
    (store ++ [newRecord hash sess body false], .redirect 303 "/messages/success")

/-- Player.findOneAndUpdate with a userId filter: sets the banned flag on the
first record whose userId matches, and is a no-op when none matches. -/
def setBanned (uid : String) (b : Bool) : List PlayerRecord → List PlayerRecord
  | [] => []
  | p :: rest =>
    if p.userId == uid then { p with banned := b } :: rest
    else p :: setBanned uid b rest

/-- POST /players/ban. kickOk is the ok flag returned by the remote kick
call; the handler issues the kick and the local banned update together via
Promise.all (modelled as both effects of one step) and never inspects either
result before redirecting to the verified list. -/
def playersBanPost (adminId : String) (sess : Session) (targetUser : String)
    (kickOk : Bool) (store : List PlayerRecord) :
    List PlayerRecord × Response × List Effect :=
  if !optTruthy sess.userId then
    (store, .redirect 303 "/auth?returnUrl=/players/verified", [])
  else if sess.userId.getD "" ≠ adminId then
    (store, .redirect 303 "/", [])
  else
    (setBanned targetUser true store, .redirect 303 "/players/verified",
     [.kick targetUser, .updatePlayer targetUser true])

/-- POST /players/unban: only the local banned flag is cleared; no remote
call is made. -/
def playersUnbanPost (adminId : String) (sess : Session) (targetUser : String)
    (store : List PlayerRecord) :
    List PlayerRecord × Response × List Effect :=
  if !optTruthy sess.userId then
    (store, .redirect 303 "/auth?returnUrl=/players/banned", [])
  else if sess.userId.getD "" ≠ adminId then
    (store, .redirect 303 "/", [])
  else
    (setBanned targetUser false store, .redirect 303 "/players/verified",
     [.updatePlayer targetUser false])

/-- The two list views served by GET /players/:playerType. -/
inductive PlayerType where
  | waiting
  | verified
deriving Repr, DecidableEq

/-- The route-parameter spelling of a player type. -/
def PlayerType.path : PlayerType → String
  | .waiting => "waiting"
  | .verified => "verified"

/-- GET /players/waiting and GET /players/verified. roster is the list of
user ids streamed from the remote team-members call; the rendered players are
the non-banned records filtered by roster membership, waiting using a
not-in-roster query and verified an in-roster query. -/
def playersListGet (adminId : String) (sess : Session) (pt : PlayerType)
    (roster : List String) (store : List PlayerRecord) :
    Response × List Effect :=
  if !optTruthy sess.userId then
    (.redirect 303 ("/auth?returnUrl=/players/" ++ pt.path), [])
  else if sess.userId.getD "" ≠ adminId then
    (.redirect 303 "/", [])
  else
    (.render ("players/" ++ pt.path ++ ".html.twig")
      (store.filter fun p =>
        (match pt with
         | .waiting => !roster.contains p.userId
         | .verified => roster.contains p.userId) && !p.banned),
     [.getTeamMembers, .findPlayers])

/-- GET /players/banned: renders every banned record, admin only. -/
def playersBannedGet (adminId : String) (sess : Session)
    (store : List PlayerRecord) : Response × List Effect :=
  if !optTruthy sess.userId then
    (.redirect 303 "/auth?returnUrl=/players/banned", [])
  else if sess.userId.getD "" ≠ adminId then
    (.redirect 303 "/", [])
  else
    (.render "players/banned.html.twig" (store.filter fun p => p.banned),
     [.findPlayers])

/-- The account payload of GET /api/account: id and username. -/
structure UserInfo where
  id : String
  username : String
deriving Repr, DecidableEq

/-- The token object obtained from the authorization-code exchange. -/
structure TokenResult where
  access_token : String
deriving Repr, DecidableEq

/-- getUserInfo from the source. Its body builds the authorization header
from token.access_token, but token is a free variable that is not defined
anywhere in the module (the parameter is named authToken and is never read),
so every call throws a ReferenceError before any request is issued. The call
to api.get is also not awaited in the source, so even with the variable fixed
the destructuring of data from the pending promise would yield undefined. -/
def getUserInfo (authToken : String) : Except String UserInfo :=
  Except.error "ReferenceError: token is not defined"

/-- GET /callback. exchange is the result of the authorization-code token
exchange (an error value models a thrown exception). On the successful
branch the source calls getUserInfo, stores userId, userName and authToken in
the session and redirects to the stored return URL; every thrown error is
caught and mapped to a 303 redirect to the home page with the session left
unchanged. -/
def callbackGet (sess : Session) (exchange : Except String TokenResult) :
    Session × Response :=
  let returnUrl := if optTruthy sess.returnUrl then sess.returnUrl.getD "" else "/"
  match exchange with
  | .error _ => (sess, .redirect 303 "/")
  | .ok result =>
    match getUserInfo result.access_token with
    | .error _ => (sess, .redirect 303 "/")
    | .ok info =>
      ({ sess with userId := some info.id, userName := info.username,
                   authToken := some result.access_token },
       .redirect 303 returnUrl)

/-! Helper lemmas. -/

/-- Every record in the store returned by POST /verify/gov is either an old
record or one of the two record objects the handler can create. -/
theorem mem_verifyGovPost (hash : String → String) (sess : Session)
    (body : VerifyBody) (vs jo : Bool) (store : List PlayerRecord)
    (r : PlayerRecord) (hr : r ∈ (verifyGovPost hash sess body vs jo store).1) :
    r ∈ store ∨ r = newRecord hash sess body true ∨
      r = newRecord hash sess body false := by
  unfold verifyGovPost at hr
  repeat' split at hr
  all_goals simp_all [List.mem_append]
  all_goals tauto

/-- A list of at least seven elements splits into seven heads and a tail. -/
theorem cons8_of_length (l : List Char) (h : 7 ≤ l.length) :
    ∃ a1 a2 a3 a4 a5 a6 a7 t,
      l = a1 :: a2 :: a3 :: a4 :: a5 :: a6 :: a7 :: t := by
  match l with
  | a1 :: a2 :: a3 :: a4 :: a5 :: a6 :: a7 :: t =>
    exact ⟨a1, a2, a3, a4, a5, a6, a7, t, rfl⟩
  | [] | [_] | [_, _] | [_, _, _] | [_, _, _, _] | [_, _, _, _, _]
  | [_, _, _, _, _, _] => simp at h

/-- When the list starts with at least eight characters that are all decimal
digits, masking keeps the first three, replaces the next five with asterisks
and keeps the rest. -/
theorem maskList_of_all_digits (cs : List Char) (h8 : 8 ≤ cs.length)
    (hd : cs.all Char.isDigit = true) :
    maskList cs = cs.take 3 ++ List.replicate 5 '*' ++ cs.drop 8 := by
  match cs with
  | [] => simp at h8
  | c :: rest =>
    have hc : (((c :: rest).take 8).length == 8 &&
        ((c :: rest).take 8).all Char.isDigit) = true := by
      simp only [Bool.and_eq_true, beq_iff_eq, List.length_take]
      refine ⟨by omega, ?_⟩
      exact List.all_eq_true.mpr fun x hx =>
        List.all_eq_true.mp hd x (List.mem_of_mem_take hx)
    rw [maskList, if_pos hc]

/-- When the string contains a run of eight consecutive decimal digits, the
masking changes it. -/
theorem maskList_ne_of_run (cs : List Char) (h : hasRun8 cs = true) :
    maskList cs ≠ cs := by
  induction cs with
  | nil => simp [hasRun8] at h
  | cons c rest ih =>
    rw [hasRun8] at h
    by_cases hb :
        (((c :: rest).take 8).length == 8 &&
          ((c :: rest).take 8).all Char.isDigit) = true
    · rw [maskList, if_pos hb]
      simp only [Bool.and_eq_true, beq_iff_eq, List.length_take] at hb
      obtain ⟨hlen, hdig⟩ := hb
      have h7 : 7 ≤ rest.length := by
        simp only [List.length_cons] at hlen ⊢
        omega
      obtain ⟨a1, a2, a3, a4, a5, a6, a7, t, rfl⟩ := cons8_of_length rest h7
      intro heq
      have heq2 : c :: a1 :: a2 :: '*' :: '*' :: '*' :: '*' :: '*' :: t
          = c :: a1 :: a2 :: a3 :: a4 :: a5 :: a6 :: a7 :: t := heq
      have hdig2 : ([c, a1, a2, a3, a4, a5, a6, a7].all Char.isDigit) = true := hdig
      simp only [List.cons.injEq, true_and] at heq2
      obtain ⟨hstar, -⟩ := heq2
      simp only [List.all_cons, List.all_nil, Bool.and_eq_true] at hdig2
      have hd3 : a3.isDigit = true := hdig2.2.2.2.1
      rw [← hstar] at hd3
      exact absurd hd3 (by decide)
    · rw [maskList, if_neg hb]
      have hrest : hasRun8 rest = true := by
        rcases (Bool.or_eq_true _ _).mp h with h1 | h1
        · exact absurd h1 hb
        · exact h1
      intro heq
      injection heq with h1 h2
      exact ih hrest h2

/-- Masking a string containing a run of eight consecutive decimal digits
yields a different string: the unmasked value is not preserved. -/
theorem maskGovId_ne_of_run (s : String) (h : hasRun8 s.data = true) :
    maskGovId s ≠ s := by
  intro heq
  have : (maskGovId s).data = s.data := by rw [heq]
  exact maskList_ne_of_run s.data h this

/-! Claim theorems. -/

/-- Claim C1: for every verification submission by an authenticated session
where the identity-verification call returns a truthy status, no existing
banned record shares the signature of the id, and the team-join call returns
ok true, the handler appends exactly one new PlayerRecord with banned false,
carrying the session userId and userName and the submitted name, surname and
year, and responds with a 303 redirect to the success message page. -/
theorem c1_verify_success_creates_one_record
    (hash : String → String) (sess : Session) (body : VerifyBody)
    (store : List PlayerRecord)
    (hauth : optTruthy sess.userId = true)
    (hnoban : bannedMatches hash body store = []) :
    verifyGovPost hash sess body true true store =
      (store ++ [{ userId := sess.userId.getD "", userName := sess.userName,
                   firstName := body.name, lastName := body.surname,
                   birthYear := body.year, govId := maskGovId body.id,
                   govIdSignature := hash body.id, banned := false }],
       Response.redirect 303 "/messages/success") := by
  simp [verifyGovPost, newRecord, hauth, hnoban]

theorem c1_witness :
    optTruthy (Session.mk (some "alice") "Alice" none none).userId = true ∧
    bannedMatches (fun _ => "sig")
      (VerifyBody.mk "12345678" "Ali" "Veli" "1990") [] = [] ∧
    verifyGovPost (fun _ => "sig") (Session.mk (some "alice") "Alice" none none)
        (VerifyBody.mk "12345678" "Ali" "Veli" "1990") true true [] =
      ([{ userId := "alice", userName := "Alice", firstName := "Ali",
          lastName := "Veli", birthYear := "1990", govId := maskGovId "12345678",
          govIdSignature := "sig", banned := false }],
       Response.redirect 303 "/messages/success") :=
  ⟨by decide, rfl,
   c1_verify_success_creates_one_record (fun _ => "sig")
     (Session.mk (some "alice") "Alice" none none)
     (VerifyBody.mk "12345678" "Ali" "Veli" "1990") [] (by decide) rfl⟩

/-- Claim C2: for every verification submission whose id signature matches at
least one existing banned record, when none of those records carries the
current account id a second banned record tagged with the current account id
is appended and the response redirects to the banned page, and when one of
them already carries the current account id no record is created and the
response still redirects to the banned page. -/
theorem c2_banned_signature_propagation
    (hash : String → String) (sess : Session) (body : VerifyBody)
    (store : List PlayerRecord) (joinOk : Bool)
    (hauth : optTruthy sess.userId = true)
    (hban : bannedMatches hash body store ≠ []) :
    ((∀ p ∈ bannedMatches hash body store, p.userId ≠ sess.userId.getD "") →
      verifyGovPost hash sess body true joinOk store =
        (store ++ [newRecord hash sess body true],
         Response.redirect 303 "/messages/banned")) ∧
    ((∃ p ∈ bannedMatches hash body store, p.userId = sess.userId.getD "") →
      verifyGovPost hash sess body true joinOk store =
        (store, Response.redirect 303 "/messages/banned")) := by
  have hpos : 0 < (bannedMatches hash body store).length :=
    List.length_pos.mpr hban
  constructor
  · intro hnone
    have hfind : ((bannedMatches hash body store).find?
        fun p => p.userId == sess.userId.getD "") = none := by
      rw [List.find?_eq_none]
      intro p hp
      simpa using hnone p hp
    simp [verifyGovPost, hauth, hpos, hfind]
  · rintro ⟨p, hp, hpu⟩
    have hsome : ((bannedMatches hash body store).find?
        fun q => q.userId == sess.userId.getD "").isSome = true := by
      rw [List.find?_isSome]
      exact ⟨p, hp, by simpa using hpu⟩
    obtain ⟨v, hv⟩ := Option.isSome_iff_exists.mp hsome
    simp [verifyGovPost, hauth, hpos, hv]

theorem c2_witness :
    optTruthy (Session.mk (some "alice") "Alice" none none).userId = true ∧
    bannedMatches (fun _ => "sig") (VerifyBody.mk "12345678" "Ali" "Veli" "1990")
      [PlayerRecord.mk "bob" "Bob" "Ali" "Veli" "1990" "123*****" "sig" true]
      ≠ [] ∧
    (((∀ p ∈ bannedMatches (fun _ => "sig")
          (VerifyBody.mk "12345678" "Ali" "Veli" "1990")
          [PlayerRecord.mk "bob" "Bob" "Ali" "Veli" "1990" "123*****" "sig" true],
        p.userId ≠ (Session.mk (some "alice") "Alice" none none).userId.getD "") →
      verifyGovPost (fun _ => "sig") (Session.mk (some "alice") "Alice" none none)
          (VerifyBody.mk "12345678" "Ali" "Veli" "1990") true true
          [PlayerRecord.mk "bob" "Bob" "Ali" "Veli" "1990" "123*****" "sig" true] =
        ([PlayerRecord.mk "bob" "Bob" "Ali" "Veli" "1990" "123*****" "sig" true] ++
          [newRecord (fun _ => "sig") (Session.mk (some "alice") "Alice" none none)
            (VerifyBody.mk "12345678" "Ali" "Veli" "1990") true],
         Response.redirect 303 "/messages/banned")) ∧
    ((∃ p ∈ bannedMatches (fun _ => "sig")
          (VerifyBody.mk "12345678" "Ali" "Veli" "1990")
          [PlayerRecord.mk "bob" "Bob" "Ali" "Veli" "1990" "123*****" "sig" true],
        p.userId = (Session.mk (some "alice") "Alice" none none).userId.getD "") →
      verifyGovPost (fun _ => "sig") (Session.mk (some "alice") "Alice" none none)
          (VerifyBody.mk "12345678" "Ali" "Veli" "1990") true true
          [PlayerRecord.mk "bob" "Bob" "Ali" "Veli" "1990" "123*****" "sig" true] =
        ([PlayerRecord.mk "bob" "Bob" "Ali" "Veli" "1990" "123*****" "sig" true],
         Response.redirect 303 "/messages/banned"))) :=
  ⟨by decide, by decide,
   c2_banned_signature_propagation (fun _ => "sig")
     (Session.mk (some "alice") "Alice" none none)
     (VerifyBody.mk "12345678" "Ali" "Veli" "1990")
     [PlayerRecord.mk "bob" "Bob" "Ali" "Veli" "1990" "123*****" "sig" true]
     true (by decide) (by decide)⟩

/-- Claim C3: for every eight-digit submitted id, every record created by the
handler stores as govId the first three digits followed by the five-asterisk
placeholder, and stores as govIdSignature the digest computed by the hash
from the original unmasked id. -/
theorem c3_eight_digit_mask_and_signature
    (hash : String → String) (sess : Session) (body : VerifyBody)
    (vs jo : Bool) (store : List PlayerRecord)
    (hlen : body.id.data.length = 8)
    (hdig : body.id.data.all Char.isDigit = true) :
    ∀ r ∈ (verifyGovPost hash sess body vs jo store).1,
      r ∈ store ∨
        (r.govId = String.mk (body.id.data.take 3 ++ List.replicate 5 '*') ∧
         r.govIdSignature = hash body.id) := by
  intro r hr
  rcases mem_verifyGovPost hash sess body vs jo store r hr with h | h | h
  · exact Or.inl h
  all_goals
    right
    subst h
    refine ⟨?_, rfl⟩
    show maskGovId body.id = _
    rw [maskGovId, maskList_of_all_digits _ (by omega) hdig,
      List.drop_eq_nil_of_le (by omega), List.append_nil]

theorem c3_witness :
    ("12345678" : String).data.length = 8 ∧
    ("12345678" : String).data.all Char.isDigit = true ∧
    ∀ r ∈ (verifyGovPost (fun _ => "sig")
        (Session.mk (some "alice") "Alice" none none)
        (VerifyBody.mk "12345678" "Ali" "Veli" "1990") true true []).1,
      r ∈ ([] : List PlayerRecord) ∨
        (r.govId = String.mk (("12345678" : String).data.take 3 ++
            List.replicate 5 '*') ∧
         r.govIdSignature = "sig") :=
  ⟨by decide, by decide,
   c3_eight_digit_mask_and_signature (fun _ => "sig")
     (Session.mk (some "alice") "Alice" none none)
     (VerifyBody.mk "12345678" "Ali" "Veli" "1990") true true []
     (by decide) (by decide)⟩

/-- Claim C4, as stated, is false: ids without a run of eight consecutive
decimal digits are not masked. Counterexample: a seven-digit id submitted on
the success creating path is stored verbatim in govId, persisting the
unmasked value. -/
theorem c4_counterexample :
    (verifyGovPost (fun _ => "sig") (Session.mk (some "carol") "Carol" none none)
        (VerifyBody.mk "1234567" "Ali" "Veli" "1990") true true []).1.map
      PlayerRecord.govId = ["1234567"] := by decide

/-- Claim C4 amended: for every submitted id containing a run of at least
eight consecutive decimal digits, on every path that creates a PlayerRecord
the id is partially masked before storage and the unmasked id value is not
persisted in the govId field. -/
theorem c4_mask_of_run
    (hash : String → String) (sess : Session) (body : VerifyBody)
    (vs jo : Bool) (store : List PlayerRecord)
    (hrun : hasRun8 body.id.data = true) :
    ∀ r ∈ (verifyGovPost hash sess body vs jo store).1,
      r ∈ store ∨ (r.govId = maskGovId body.id ∧ r.govId ≠ body.id) := by
  intro r hr
  rcases mem_verifyGovPost hash sess body vs jo store r hr with h | h | h
  · exact Or.inl h
  all_goals
    right
    subst h
    exact ⟨rfl, maskGovId_ne_of_run body.id hrun⟩

theorem c4_witness :
    hasRun8 ("11223344556" : String).data = true ∧
    ∀ r ∈ (verifyGovPost (fun _ => "sig")
        (Session.mk (some "dave") "Dave" none none)
        (VerifyBody.mk "11223344556" "Ali" "Veli" "1990") true true []).1,
      r ∈ ([] : List PlayerRecord) ∨
        (r.govId = maskGovId "11223344556" ∧ r.govId ≠ "11223344556") :=
  ⟨by decide,
   c4_mask_of_run (fun _ => "sig") (Session.mk (some "dave") "Dave" none none)
     (VerifyBody.mk "11223344556" "Ali" "Veli" "1990") true true [] (by decide)⟩

/-- Claim C5 names the intended behaviour of GET /callback, but the code has
a slip: getUserInfo reads the undefined free variable token instead of its
authToken parameter (and does not await the request), so the account fetch
always throws, the session fields are never stored, and the callback always
redirects 303 to the home page whatever the exchange outcome. This theorem
evaluates the handler on every input, exhibiting the divergence. -/
theorem c5_callback_always_home (sess : Session)
    (exchange : Except String TokenResult) :
    callbackGet sess exchange = (sess, Response.redirect 303 "/") := by
  cases exchange <;> simp [callbackGet, getUserInfo]

/-- Claim C6: an admin ban request issues the remote kick together with the
local banned update and redirects to the verified list whatever the kick
outcome and whether or not a record matched; an admin unban request only
clears the local banned flag and performs no remote call. -/
theorem c6_ban_unban_effects (adminId : String) (sess : Session)
    (hauth : optTruthy sess.userId = true)
    (hadmin : sess.userId.getD "" = adminId) :
    (∀ targetUser kickOk store,
      playersBanPost adminId sess targetUser kickOk store =
        (setBanned targetUser true store,
         Response.redirect 303 "/players/verified",
         [Effect.kick targetUser, Effect.updatePlayer targetUser true])) ∧
    (∀ targetUser store,
      playersUnbanPost adminId sess targetUser store =
        (setBanned targetUser false store,
         Response.redirect 303 "/players/verified",
         [Effect.updatePlayer targetUser false])) ∧
    (∀ targetUser store, ∀ e ∈ (playersUnbanPost adminId sess targetUser store).2.2,
      e.isRemote = false) := by
  refine ⟨?_, ?_, ?_⟩
  · intro targetUser kickOk store
    simp [playersBanPost, hauth, hadmin]
  · intro targetUser store
    simp [playersUnbanPost, hauth, hadmin]
  · intro targetUser store e he
    simp [playersUnbanPost, hauth, hadmin] at he
    simp [he, Effect.isRemote]

theorem c6_witness :
    optTruthy (Session.mk (some "admin") "Admin" none none).userId = true ∧
    (Session.mk (some "admin") "Admin" none none).userId.getD "" = "admin" ∧
    ((∀ targetUser kickOk store,
      playersBanPost "admin" (Session.mk (some "admin") "Admin" none none)
          targetUser kickOk store =
        (setBanned targetUser true store,
         Response.redirect 303 "/players/verified",
         [Effect.kick targetUser, Effect.updatePlayer targetUser true])) ∧
    (∀ targetUser store,
      playersUnbanPost "admin" (Session.mk (some "admin") "Admin" none none)
          targetUser store =
        (setBanned targetUser false store,
         Response.redirect 303 "/players/verified",
         [Effect.updatePlayer targetUser false])) ∧
    (∀ targetUser store,
      ∀ e ∈ (playersUnbanPost "admin" (Session.mk (some "admin") "Admin" none none)
          targetUser store).2.2,
        e.isRemote = false)) :=
  ⟨by decide, by decide,
   c6_ban_unban_effects "admin" (Session.mk (some "admin") "Admin" none none)
     (by decide) (by decide)⟩

/-- Claim C7: for an admin session, the waiting view renders exactly the
non-banned stored players whose userId is absent from the live roster, and
the verified view renders exactly the non-banned stored players whose userId
is present in the roster. -/
theorem c7_views_exact (adminId : String) (sess : Session) (pt : PlayerType)
    (roster : List String) (store : List PlayerRecord)
    (hauth : optTruthy sess.userId = true)
    (hadmin : sess.userId.getD "" = adminId) :
    ∃ ps, (playersListGet adminId sess pt roster store).1 =
        Response.render ("players/" ++ pt.path ++ ".html.twig") ps ∧
      ∀ p, p ∈ ps ↔ p ∈ store ∧ p.banned = false ∧
        ((p.userId ∈ roster) ↔ pt = PlayerType.verified) := by
  refine ⟨store.filter fun p =>
      (match pt with
       | .waiting => !roster.contains p.userId
       | .verified => roster.contains p.userId) && !p.banned, ?_, ?_⟩
  · simp [playersListGet, hauth, hadmin]
  · intro p
    rw [List.mem_filter]
    cases pt <;> simp <;> tauto

theorem c7_witness :
    optTruthy (Session.mk (some "admin") "Admin" none none).userId = true ∧
    (Session.mk (some "admin") "Admin" none none).userId.getD "" = "admin" ∧
    ∃ ps, (playersListGet "admin" (Session.mk (some "admin") "Admin" none none)
        PlayerType.waiting ["bob"]
        [PlayerRecord.mk "bob" "Bob" "Ali" "Veli" "1990" "123*****" "sig" false,
         PlayerRecord.mk "eve" "Eve" "Ayse" "Kaya" "1991" "321*****" "gis" false]).1 =
        Response.render ("players/" ++ PlayerType.waiting.path ++ ".html.twig") ps ∧
      ∀ p, p ∈ ps ↔
        p ∈ [PlayerRecord.mk "bob" "Bob" "Ali" "Veli" "1990" "123*****" "sig" false,
             PlayerRecord.mk "eve" "Eve" "Ayse" "Kaya" "1991" "321*****" "gis" false] ∧
          p.banned = false ∧
          ((p.userId ∈ (["bob"] : List String)) ↔
            PlayerType.waiting = PlayerType.verified) :=
  ⟨by decide, by decide,
   c7_views_exact "admin" (Session.mk (some "admin") "Admin" none none)
     PlayerType.waiting ["bob"]
     [PlayerRecord.mk "bob" "Bob" "Ali" "Veli" "1990" "123*****" "sig" false,
      PlayerRecord.mk "eve" "Eve" "Ayse" "Kaya" "1991" "321*****" "gis" false]
     (by decide) (by decide)⟩

/-- Claim C8: every admin route, when reached by an authenticated session
whose userId differs from the configured administrator id, responds with a
redirect to the home page, leaves the store unchanged, and performs no store
or remote operation. -/
theorem c8_non_admin_redirect_home (adminId : String) (sess : Session)
    (hauth : optTruthy sess.userId = true)
    (hne : sess.userId.getD "" ≠ adminId) :
    (∀ pt roster store, playersListGet adminId sess pt roster store =
        (Response.redirect 303 "/", [])) ∧
    (∀ store, playersBannedGet adminId sess store =
        (Response.redirect 303 "/", [])) ∧
    (∀ targetUser kickOk store,
      playersBanPost adminId sess targetUser kickOk store =
        (store, Response.redirect 303 "/", [])) ∧
    (∀ targetUser store, playersUnbanPost adminId sess targetUser store =
        (store, Response.redirect 303 "/", [])) := by
  refine ⟨?_, ?_, ?_, ?_⟩ <;> intros <;>
    simp [playersListGet, playersBannedGet, playersBanPost, playersUnbanPost,
      hauth, hne]

theorem c8_witness :
    optTruthy (Session.mk (some "mallory") "Mallory" none none).userId = true ∧
    (Session.mk (some "mallory") "Mallory" none none).userId.getD "" ≠ "admin" ∧
    ((∀ pt roster store,
      playersListGet "admin" (Session.mk (some "mallory") "Mallory" none none)
          pt roster store = (Response.redirect 303 "/", [])) ∧
    (∀ store, playersBannedGet "admin"
        (Session.mk (some "mallory") "Mallory" none none) store =
        (Response.redirect 303 "/", [])) ∧
    (∀ targetUser kickOk store,
      playersBanPost "admin" (Session.mk (some "mallory") "Mallory" none none)
          targetUser kickOk store = (store, Response.redirect 303 "/", [])) ∧
    (∀ targetUser store,
      playersUnbanPost "admin" (Session.mk (some "mallory") "Mallory" none none)
          targetUser store = (store, Response.redirect 303 "/", []))) :=
  ⟨by decide, by decide,
   c8_non_admin_redirect_home "admin"
     (Session.mk (some "mallory") "Mallory" none none) (by decide) (by decide)⟩

/-- Claim C9: for every authenticated verification submission where the
identity-verification call returns a falsy status, the handler redirects 303
back to the verification form and the store is unchanged. -/
theorem c9_invalid_status_no_write
    (hash : String → String) (sess : Session) (body : VerifyBody)
    (joinOk : Bool) (store : List PlayerRecord)
    (hauth : optTruthy sess.userId = true) :
    verifyGovPost hash sess body false joinOk store =
      (store, Response.redirect 303 "/verify/gov") := by
  simp [verifyGovPost, hauth]

theorem c9_witness :
    optTruthy (Session.mk (some "alice") "Alice" none none).userId = true ∧
    verifyGovPost (fun _ => "sig") (Session.mk (some "alice") "Alice" none none)
        (VerifyBody.mk "12345678" "Ali" "Veli" "1990") false true [] =
      ([], Response.redirect 303 "/verify/gov") :=
  ⟨by decide,
   c9_invalid_status_no_write (fun _ => "sig")
     (Session.mk (some "alice") "Alice" none none)
     (VerifyBody.mk "12345678" "Ali" "Veli" "1990") true [] (by decide)⟩

/-- Claim C10: for every submitted id longer than eight digits consisting of
decimal digits, every record created by the handler stores as govId the
first three digits, then the five-asterisk placeholder for digits four to
eight, then every digit after the eighth unmasked in cleartext. -/
theorem c10_long_id_tail_unmasked
    (hash : String → String) (sess : Session) (body : VerifyBody)
    (vs jo : Bool) (store : List PlayerRecord)
    (hlen : 8 < body.id.data.length)
    (hdig : body.id.data.all Char.isDigit = true) :
    ∀ r ∈ (verifyGovPost hash sess body vs jo store).1,
      r ∈ store ∨
        r.govId = String.mk (body.id.data.take 3 ++ List.replicate 5 '*' ++
          body.id.data.drop 8) := by
  intro r hr
  rcases mem_verifyGovPost hash sess body vs jo store r hr with h | h | h
  · exact Or.inl h
  all_goals
    right
    subst h
    show maskGovId body.id = _
    rw [maskGovId, maskList_of_all_digits _ (by omega) hdig]

theorem c10_witness :
    8 < ("12345678901" : String).data.length ∧
    ("12345678901" : String).data.all Char.isDigit = true ∧
    ∀ r ∈ (verifyGovPost (fun _ => "sig")
        (Session.mk (some "erin") "Erin" none none)
        (VerifyBody.mk "12345678901" "Ali" "Veli" "1990") true true []).1,
      r ∈ ([] : List PlayerRecord) ∨
        r.govId = String.mk (("12345678901" : String).data.take 3 ++
          List.replicate 5 '*' ++ ("12345678901" : String).data.drop 8) :=
  ⟨by decide, by decide,
   c10_long_id_tail_unmasked (fun _ => "sig")
     (Session.mk (some "erin") "Erin" none none)
     (VerifyBody.mk "12345678901" "Ali" "Veli" "1990") true true []
     (by decide) (by decide)⟩

end LilaTrgovid
